import Mathlib

/-!
Verification of the HarmonicIntelligence repository core: the shared
append-only bounded memory feed (server.js in-memory store, the
FeedController logic of the React components, and the LiveFeed insert
echo handler), shallowly embedded in Lean.

Sources embedded:
- `src/server.js` — Express store: GET returns the whole array, POST
  appends with `id := Date.now()` and evicts to the last 100 entries.
- `src/src/HarmonicTriangle.jsx` — the non-realtime variant (bootstrap
  fetch with `data.reverse().slice(0,5)`; submit appends
  `[entry, ...prev].slice(0,5)` on both save success and failure).
- `src/unnamed/part_000` — the realtime "Shared Resonance Field"
  variant (`fetchMemory`, `setupRealtimeSubscription` insert handler
  `[newEntry, ...prev.slice(0,4)]`, `processHarmonicResponse` that
  relies on the LiveFeed echo on successful insert and appends locally
  on failure).

JS strings become Lean `String`, ISO timestamps and `Date.now()`
readings become `Nat` clock values, numbers become `Int`/`Nat`, and
each asynchronous store call is embedded by passing its result
(`Except String _`) as an explicit argument to the state-transition
function that consumes it.
-/

/-- One harmonic memory record.  Mirrors the object literals built in
`processHarmonicResponse` (fields `x, y, z, score, timestamp, user_id`)
and the server's stored entries (which additionally carry `id`);
`id = none` models an entry that has no store-assigned id. -/
structure Entry where
  x : String
  y : String
  z : String
  score : Int
  timestamp : Nat
  user_id : String := ""
  id : Option Nat := none
deriving DecidableEq, Repr

/-- The fixed response table of `processHarmonicResponse` (identical in
both component variants). -/
def responses : List String :=
  [ "The field echoes clarity.",
    "Harmonics are unstable, resolve gently.",
    "Stabilized vector forms resonance.",
    "This tone carries incomplete recursion.",
    "Phase integrity confirmed; coherence upheld.",
    "Intent and tone in disharmonic sync." ]

/-- `combinedField = intent + "-" + tone` from the source. -/
def combinedField (intent tone : String) : String :=
  intent ++ "-" ++ tone

/-- `score = 100 - Math.abs(50 - (hash % 100))` from the source, where
`hash` is the length of the combined field. -/
def coherenceScoreOf (h : Nat) : Int :=
  100 - (((50 : Int) - ((h % 100 : Nat) : Int)).natAbs : Int)

/-- `result = responses[hash % responses.length]` from the source. -/
def responseOf (h : Nat) : String :=
  responses.getD (h % responses.length) ""

-- ---------------------------------------------------------------------
-- server.js store model
-- ---------------------------------------------------------------------

/-- The entry built by the POST handler in `server.js`:
`{...req.body, id: Date.now(), timestamp: new Date().toISOString()}`.
Both clock reads are modelled by the single reading `now`. -/
def mkServerEntry (now : Nat) (body : Entry) : Entry :=
  { body with id := some now, timestamp := now }

/-- Last `n` elements of a list, as `harmonicMemory.slice(-n)`. -/
def lastN (n : Nat) (l : List Entry) : List Entry :=
  l.drop (l.length - n)

/-- The POST /api/harmonic-memory handler of `server.js`: push the new
entry, evict down to the last 100 when the store exceeds 100, respond
201 with the stored entry.  Returns (stored entry, new store, HTTP
status). -/
def serverPost (now : Nat) (body : Entry) (store : List Entry) :
    Entry × List Entry × Nat :=
  let e := mkServerEntry now body
  let pushed := store ++ [e]
  let kept := if pushed.length > 100 then lastN 100 pushed else pushed
  (e, kept, 201)

/-- The GET /api/harmonic-memory handler of `server.js`: respond with
the whole array, in insertion order, ignoring any limit parameter. -/
def serverGet (store : List Entry) : List Entry :=
  store

/-- A sequence of POSTs, each with its own clock reading and body. -/
def serverPostMany (reqs : List (Nat × Entry)) (store : List Entry) :
    List Entry :=
  reqs.foldl (fun s r => (serverPost r.1 r.2 s).2.1) store

-- ---------------------------------------------------------------------
-- FeedController model (React component state and transitions)
-- ---------------------------------------------------------------------

/-- The `apiStatus` React state: "checking" | "connected" |
"not-configured" | "error".  The spec's ConnectionState maps
`local-only` to `notConfigured` and `degraded` to `error`. -/
inductive ApiStatus
  | checking
  | connected
  | notConfigured
  | error
deriving DecidableEq, Repr

/-- The React state of the component that the core transitions touch:
`inputIntent`, `fieldTone`, `outputResponse`, `memoryDisplay`,
`coherenceScore`, `apiStatus`. -/
structure ControllerState where
  inputIntent : String
  fieldTone : String
  outputResponse : String
  memoryDisplay : List Entry
  coherenceScore : Int
  apiStatus : ApiStatus
deriving DecidableEq, Repr

/-- Environment configuration: `REACT_APP_SUPABASE_URL` and
`REACT_APP_SUPABASE_ANON_KEY`, each possibly unset. -/
structure Config where
  url : Option String
  anonKey : Option String

/-- Fallback URL from `SUPABASE_URL = process.env... || "https://your-project.supabase.co"`. -/
def placeholderUrl : String := "https://your-project.supabase.co"

/-- Fallback key from `SUPABASE_ANON_KEY = process.env... || "your-anon-key"`. -/
def placeholderKey : String := "your-anon-key"

/-- JS `process.env.X || fallback`: an unset or empty variable falls
back to the placeholder. -/
def effectiveUrl (c : Config) : String :=
  match c.url with
  | none => placeholderUrl
  | some u => if u = "" then placeholderUrl else u

/-- Same for the anon key. -/
def effectiveKey (c : Config) : String :=
  match c.anonKey with
  | none => placeholderKey
  | some k => if k = "" then placeholderKey else k

/-- The guard `if (!inputIntent.trim()) return;` of both variants:
`trim` strips leading and trailing whitespace and the result is falsy
exactly when it is empty, i.e. when every character of the intent is
whitespace. -/
def blankIntent (intent : String) : Bool :=
  intent.data.all Char.isWhitespace

/-- `fetchMemory` of part_000: on a successful select (ordered by
timestamp descending, limit 5) set the view to the data and the status
to connected; on a database error or thrown failure set the status to
error.  The select result is passed in as `res`. -/
def fetchMemory (s : ControllerState) (res : Except String (List Entry)) :
    ControllerState :=
  match res with
  | Except.ok data =>
      { s with memoryDisplay := data, apiStatus := ApiStatus.connected }
  | Except.error _ =>
      { s with apiStatus := ApiStatus.error }

/-- The INSERT branch of `setupRealtimeSubscription` in part_000:
`setMemoryDisplay(prev => [newEntry, ...prev.slice(0, 4)])`. -/
def onLiveFeedInsert (newEntry : Entry) (prev : List Entry) : List Entry :=
  newEntry :: prev.take 4

/-- The bootstrap `useEffect` of part_000: when the URL or key still
holds its placeholder, set status to not-configured and stop; otherwise
run `fetchMemory` and set up the realtime and presence subscriptions.
Returns the new state and two flags: whether the bootstrap fetch was
attempted and whether subscriptions were attempted. -/
def bootstrap (c : Config) (fetchRes : Except String (List Entry))
    (s : ControllerState) : ControllerState × Bool × Bool :=
  if effectiveUrl c = placeholderUrl ∨ effectiveKey c = placeholderKey then
    ({ s with apiStatus := ApiStatus.notConfigured }, false, false)
  else
    (fetchMemory s fetchRes, true, true)

/-- The entry literal built by `processHarmonicResponse` in part_000:
`{x, y, z: result, score, timestamp, user_id}`. -/
def madeEntry (intent tone : String) (now : Nat) : Entry :=
  let h := (combinedField intent tone).length
  { x := intent
    y := tone
    z := responseOf h
    score := coherenceScoreOf h
    timestamp := now
    user_id := "user_" ++ toString now
    id := none }

/-- `processHarmonicResponse` of part_000.  The insert result (used
only on the connected path) is passed in as `insertRes`; `now` is the
clock reading for the timestamp and user id.  Returns the new state and
whether a store insert was attempted.  Faithful to the source: empty or
whitespace-only intent returns immediately; otherwise output and score
are set; when connected, a successful insert leaves the view to the
LiveFeed echo, a failed insert appends `[entry, ...prev.slice(0, 4)]`
locally; when not connected, the same local append happens with no
store call.  `apiStatus` is never written by this function. -/
def processHarmonicResponse (s : ControllerState) (now : Nat)
    (insertRes : Except String Unit) : ControllerState × Bool :=
  if blankIntent s.inputIntent then (s, false)
  else
    let h := (combinedField s.inputIntent s.fieldTone).length
    let entry := madeEntry s.inputIntent s.fieldTone now
    let s1 := { s with outputResponse := responseOf h,
                       coherenceScore := coherenceScoreOf h }
    if s.apiStatus = ApiStatus.connected then
      match insertRes with
      | Except.ok _ => (s1, true)
      | Except.error _ =>
          ({ s1 with memoryDisplay := entry :: s1.memoryDisplay.take 4 }, true)
    else
      ({ s1 with memoryDisplay := entry :: s1.memoryDisplay.take 4 }, false)

-- ---------------------------------------------------------------------
-- HarmonicTriangle.jsx (non-realtime variant)
-- ---------------------------------------------------------------------

/-- The entry literal of HarmonicTriangle.jsx (no `user_id`). -/
def madeEntryV0 (intent tone : String) (now : Nat) : Entry :=
  let h := (combinedField intent tone).length
  { x := intent
    y := tone
    z := responseOf h
    score := coherenceScoreOf h
    timestamp := now
    id := none }

/-- The bootstrap view seeding of HarmonicTriangle.jsx:
`setMemoryDisplay(data.reverse().slice(0, 5))` applied to the GET
response. -/
def bootstrapSeedV0 (data : List Entry) : List Entry :=
  data.reverse.take 5

/-- `processHarmonicResponse` of HarmonicTriangle.jsx: identical score
engine; the view update `[memoryEntry, ...prev].slice(0, 5)` runs on
save success, on save failure, and on the local-only path alike.
`saveAttempted` reports whether a POST was issued. -/
def processHarmonicResponseV0 (s : ControllerState) (now : Nat) :
    ControllerState × Bool :=
  if blankIntent s.inputIntent then (s, false)
  else
    let h := (combinedField s.inputIntent s.fieldTone).length
    let entry := madeEntryV0 s.inputIntent s.fieldTone now
    let s1 := { s with outputResponse := responseOf h,
                       coherenceScore := coherenceScoreOf h,
                       memoryDisplay := (entry :: s.memoryDisplay).take 5 }
    (s1, s.apiStatus = ApiStatus.connected)

-- ---------------------------------------------------------------------
-- View invariant
-- ---------------------------------------------------------------------

/-- Most-recent-first: timestamps are pairwise nonincreasing. -/
def sortedDesc (l : List Entry) : Prop :=
  l.Pairwise (fun a b => b.timestamp ≤ a.timestamp)

/-- Insertion order (oldest first): timestamps pairwise nondecreasing. -/
def sortedAsc (l : List Entry) : Prop :=
  l.Pairwise (fun a b => a.timestamp ≤ b.timestamp)

instance (l : List Entry) : Decidable (sortedDesc l) :=
  List.instDecidablePairwise l

instance (l : List Entry) : Decidable (sortedAsc l) :=
  List.instDecidablePairwise l

/-- The displayed-view invariant of the spec: at most K=5 entries,
most-recent first. -/
def viewInv (l : List Entry) : Prop :=
  l.length ≤ 5 ∧ sortedDesc l

instance (l : List Entry) : Decidable (viewInv l) :=
  instDecidableAnd

/-- Number of view entries carrying a given store id. -/
def countId (l : List Entry) (i : Option Nat) : Nat :=
  l.countP (fun e => e.id == i)

-- ---------------------------------------------------------------------
-- Helper lemmas
-- ---------------------------------------------------------------------

theorem viewInv_cons_take (e : Entry) (prev : List Entry)
    (hv : viewInv prev) (he : ∀ x ∈ prev, x.timestamp ≤ e.timestamp) :
    viewInv (e :: prev.take 4) := by
  constructor
  · simp only [List.length_cons, List.length_take]
    omega
  · refine List.pairwise_cons.mpr ⟨?_, ?_⟩
    · intro b hb
      exact he b (List.take_subset _ _ hb)
    · exact hv.2.sublist (List.take_sublist _ _)

theorem sortedDesc_reverse_take (store : List Entry) (n : Nat)
    (h : sortedAsc store) : sortedDesc (store.reverse.take n) := by
  have hrev : sortedDesc store.reverse := by
    unfold sortedDesc
    unfold sortedAsc at h
    exact List.pairwise_reverse.mpr h
  exact hrev.sublist (List.take_sublist _ _)

-- ---------------------------------------------------------------------
-- Sample data for witnesses and counterexamples
-- ---------------------------------------------------------------------

/-- A stored entry as it arrives via the realtime INSERT payload. -/
def eA : Entry :=
  { x := "Hello", y := "Trust", z := "Intent and tone in disharmonic sync.",
    score := 61, timestamp := 10, user_id := "user_10", id := some 10 }

/-- An older stored entry. -/
def eOld : Entry :=
  { x := "a", y := "Neutral", z := "", score := 58, timestamp := 1,
    user_id := "", id := some 1 }

/-- A newer stored entry. -/
def eNew : Entry :=
  { x := "b", y := "Trust", z := "", score := 57, timestamp := 2,
    user_id := "", id := some 2 }

/-- A server store holding two entries in insertion order
(oldest first). -/
def exStore : List Entry := [eOld, eNew]

/-- A connected component state with a nonblank intent. -/
def sConnected : ControllerState :=
  { inputIntent := "Hello", fieldTone := "Trust", outputResponse := "",
    memoryDisplay := [], coherenceScore := 0,
    apiStatus := ApiStatus.connected }

/-- A freshly mounted component state (status still checking). -/
def sChecking : ControllerState :=
  { inputIntent := "Hello", fieldTone := "Trust", outputResponse := "",
    memoryDisplay := [], coherenceScore := 0,
    apiStatus := ApiStatus.checking }

/-- A state whose intent is whitespace-only. -/
def sBlankIntent : ControllerState :=
  { inputIntent := "   ", fieldTone := "Trust", outputResponse := "",
    memoryDisplay := [eA], coherenceScore := 0,
    apiStatus := ApiStatus.connected }

-- ---------------------------------------------------------------------
-- Claims
-- ---------------------------------------------------------------------

/-- Claim C8: for every h in [0,99] the coherence score
100 - abs(50 - h) lies in [0,100] and equals 100 exactly when h = 50,
and the score carried by every entry built on the submit path (both
component variants) lies in [0,100]. -/
theorem c8_coherence_score_range (h : Nat) (hh : h < 100)
    (intent tone : String) (now : Nat) :
    (0 ≤ coherenceScoreOf h ∧ coherenceScoreOf h ≤ 100 ∧
      (coherenceScoreOf h = 100 ↔ h = 50)) ∧
    (0 ≤ (madeEntry intent tone now).score ∧
      (madeEntry intent tone now).score ≤ 100) ∧
    (0 ≤ (madeEntryV0 intent tone now).score ∧
      (madeEntryV0 intent tone now).score ≤ 100) := by
  have key : ∀ k : Nat, 0 ≤ coherenceScoreOf k ∧ coherenceScoreOf k ≤ 100 := by
    intro k
    unfold coherenceScoreOf
    have hk : k % 100 < 100 := Nat.mod_lt _ (by omega)
    omega
  refine ⟨⟨(key h).1, (key h).2, ?_⟩, ?_, ?_⟩
  · unfold coherenceScoreOf
    have : h % 100 = h := Nat.mod_eq_of_lt hh
    rw [this]
    omega
  · simpa [madeEntry] using key (combinedField intent tone).length
  · simpa [madeEntryV0] using key (combinedField intent tone).length

/-- Witness for C8 at h = 50, intent "Hello", tone "Trust". -/
theorem c8_coherence_score_range_witness :
    (0 ≤ coherenceScoreOf 50 ∧ coherenceScoreOf 50 ≤ 100 ∧
      (coherenceScoreOf 50 = 100 ↔ 50 = 50)) ∧
    (0 ≤ (madeEntry "Hello" "Trust" 7).score ∧
      (madeEntry "Hello" "Trust" 7).score ≤ 100) ∧
    (0 ≤ (madeEntryV0 "Hello" "Trust" 7).score ∧
      (madeEntryV0 "Hello" "Trust" 7).score ≤ 100) :=
  c8_coherence_score_range 50 (by decide) "Hello" "Trust" 7

/-- Claim C9: submitting with an empty or whitespace-only intent is a
complete no-op in both component variants: the returned state is the
input state (view, output, score, status all unchanged) and no store
call is attempted. -/
theorem c9_blank_intent_noop (s : ControllerState) (now : Nat)
    (insertRes : Except String Unit) (h : blankIntent s.inputIntent = true) :
    processHarmonicResponse s now insertRes = (s, false) ∧
    processHarmonicResponseV0 s now = (s, false) := by
  unfold processHarmonicResponse processHarmonicResponseV0
  rw [if_pos h, if_pos h]
  exact ⟨rfl, rfl⟩

/-- Witness for C9 on a whitespace-only intent. -/
theorem c9_blank_intent_noop_witness :
    processHarmonicResponse sBlankIntent 7 (Except.error "down")
      = (sBlankIntent, false) ∧
    processHarmonicResponseV0 sBlankIntent 7 = (sBlankIntent, false) :=
  c9_blank_intent_noop sBlankIntent 7 (Except.error "down") (by decide)

/-- Claim C10: the server's POST handler assigns `id := Date.now()`, so
two bodies accepted at the same clock reading receive the same id, and
after two such POSTs the store holds two entries with that id: the
store-assigned id is not unique. -/
theorem c10_server_id_is_clock (now : Nat) (b1 b2 : Entry) :
    (mkServerEntry now b1).id = some now ∧
    (mkServerEntry now b1).id = (mkServerEntry now b2).id ∧
    countId (serverPost now b2 (serverPost now b1 []).2.1).2.1 (some now) = 2 := by
  refine ⟨rfl, rfl, ?_⟩
  simp [serverPost, mkServerEntry, countId, lastN, List.countP_cons]

/-- Claim C1 counterexample: delivering the same stored entry's INSERT
notification twice through the realtime handler leaves two view entries
with its id, not exactly one — the handler performs no de-duplication. -/
theorem c1_duplicate_delivery_counterexample :
    countId (onLiveFeedInsert eA (onLiveFeedInsert eA [])) eA.id = 2 ∧
    ¬ countId (onLiveFeedInsert eA (onLiveFeedInsert eA [])) eA.id = 1 := by
  decide

/-- Claim C1 (amended): the realtime INSERT handler prepends every
delivered entry without de-duplication by id or structure, so each
delivery of a stored entry adds one more copy of it to the view (on top
of the copies surviving the slice to 4 trailing entries). -/
theorem c1_insert_prepends_without_dedup (e : Entry) (prev : List Entry) :
    countId (onLiveFeedInsert e prev) e.id
      = countId (prev.take 4) e.id + 1 := by
  simp [onLiveFeedInsert, countId, List.countP_cons]

/-- Claim C2 counterexample: in the realtime variant, when a connected
submit's durable insert fails, the entry is appended locally but the
connection status is left at `connected` — it is not marked degraded
(the `error` status), refuting the claim's failure clause at this
concrete input. -/
theorem c2_failed_insert_not_degraded_counterexample :
    (processHarmonicResponse sConnected 9 (Except.error "down")).1.apiStatus
        = ApiStatus.connected ∧
    ¬ (processHarmonicResponse sConnected 9 (Except.error "down")).1.apiStatus
        = ApiStatus.error ∧
    (processHarmonicResponse sConnected 9 (Except.error "down")).1.memoryDisplay
        = [madeEntry "Hello" "Trust" 9] := by
  decide

/-- Claim C2 (amended): in the realtime variant, a connected submit
whose insert succeeds leaves the view untouched (relying on the
LiveFeed echo) after attempting the store call, and a failed insert
appends the entry directly to the local view while leaving the
connection status unchanged (never marking it degraded); in the
non-realtime variant the entry is appended to the view on success and
failure alike. -/
theorem c2_submit_paths (s : ControllerState) (now : Nat) (msg : String)
    (hc : s.apiStatus = ApiStatus.connected)
    (hi : ¬ blankIntent s.inputIntent = true) :
    (processHarmonicResponse s now (Except.ok ())).1.memoryDisplay
        = s.memoryDisplay ∧
    (processHarmonicResponse s now (Except.ok ())).2 = true ∧
    (processHarmonicResponse s now (Except.error msg)).1.memoryDisplay
        = madeEntry s.inputIntent s.fieldTone now :: s.memoryDisplay.take 4 ∧
    (processHarmonicResponse s now (Except.error msg)).1.apiStatus
        = s.apiStatus ∧
    (processHarmonicResponseV0 s now).1.memoryDisplay
        = (madeEntryV0 s.inputIntent s.fieldTone now :: s.memoryDisplay).take 5 := by
  unfold processHarmonicResponse processHarmonicResponseV0
  rw [if_neg hi, if_neg hi, if_neg hi, if_pos hc, if_pos hc]
  exact ⟨rfl, rfl, rfl, rfl, rfl⟩

/-- Witness for C2 (amended) on a concrete connected state. -/
theorem c2_submit_paths_witness :
    (processHarmonicResponse sConnected 9 (Except.ok ())).1.memoryDisplay
        = sConnected.memoryDisplay ∧
    (processHarmonicResponse sConnected 9 (Except.ok ())).2 = true ∧
    (processHarmonicResponse sConnected 9 (Except.error "down")).1.memoryDisplay
        = madeEntry sConnected.inputIntent sConnected.fieldTone 9
            :: sConnected.memoryDisplay.take 4 ∧
    (processHarmonicResponse sConnected 9 (Except.error "down")).1.apiStatus
        = sConnected.apiStatus ∧
    (processHarmonicResponseV0 sConnected 9).1.memoryDisplay
        = (madeEntryV0 sConnected.inputIntent sConnected.fieldTone 9
            :: sConnected.memoryDisplay).take 5 :=
  c2_submit_paths sConnected 9 "down" (by decide) (by decide)

/-- Claim C3: after each mutation of the displayed memory view — the
realtime INSERT echo, the local-fallback append of either submit
variant, the part_000 bootstrap seeding, and the jsx bootstrap seeding
from the server store — the view holds at most 5 entries and is ordered
most-recent-first, given that the view satisfied the invariant before,
that incoming entries are at least as recent as everything displayed
(timestamps are assigned monotonically), and that bootstrap data
respects the store query's contract (descending, limit 5). -/
theorem c3_view_invariant (s : ControllerState) (e : Entry)
    (data store : List Entry) (now : Nat) (res : Except String Unit)
    (hv : viewInv s.memoryDisplay)
    (he : ∀ x ∈ s.memoryDisplay, x.timestamp ≤ e.timestamp)
    (hn : ∀ x ∈ s.memoryDisplay, x.timestamp ≤ now)
    (hd : data.length ≤ 5) (hds : sortedDesc data)
    (hst : sortedAsc store) :
    viewInv (onLiveFeedInsert e s.memoryDisplay) ∧
    viewInv ((fetchMemory s (Except.ok data)).memoryDisplay) ∧
    viewInv ((processHarmonicResponse s now res).1.memoryDisplay) ∧
    viewInv ((processHarmonicResponseV0 s now).1.memoryDisplay) ∧
    viewInv (bootstrapSeedV0 (serverGet store)) := by
  have hmade : ∀ intent tone, (madeEntry intent tone now).timestamp = now :=
    fun _ _ => rfl
  refine ⟨viewInv_cons_take e s.memoryDisplay hv he, ⟨hd, hds⟩, ?_, ?_, ?_⟩
  · unfold processHarmonicResponse
    split
    · exact hv
    · split
      · split
        · exact hv
        · exact viewInv_cons_take _ _ hv hn
      · exact viewInv_cons_take _ _ hv hn
  · unfold processHarmonicResponseV0
    split
    · exact hv
    · show viewInv ((madeEntryV0 s.inputIntent s.fieldTone now
        :: s.memoryDisplay).take 5)
      rw [List.take_succ_cons]
      exact viewInv_cons_take _ _ hv hn
  · refine ⟨?_, sortedDesc_reverse_take store 5 hst⟩
    unfold bootstrapSeedV0 serverGet
    simp [List.length_take]

/-- Witness for C3 on concrete views and stores. -/
theorem c3_view_invariant_witness :
    viewInv (onLiveFeedInsert eA sChecking.memoryDisplay) ∧
    viewInv ((fetchMemory sChecking (Except.ok [eNew, eOld])).memoryDisplay) ∧
    viewInv ((processHarmonicResponse sChecking 9
        (Except.error "down")).1.memoryDisplay) ∧
    viewInv ((processHarmonicResponseV0 sChecking 9).1.memoryDisplay) ∧
    viewInv (bootstrapSeedV0 (serverGet exStore)) :=
  c3_view_invariant sChecking eA [eNew, eOld] exStore 9
    (Except.error "down") (by decide) (by decide) (by decide) (by decide)
    (by decide) (by decide)

/-- Claim C4 counterexample: the server's GET handler does not
implement `listRecent(N)` as claimed: on a store of two entries with
limit 1 it returns both entries, in insertion order (oldest first), so
the result length exceeds the limit and the order is not
most-recent-first. -/
theorem c4_server_get_ignores_limit_counterexample :
    (serverGet exStore).length = 2 ∧
    ¬ (serverGet exStore).length ≤ 1 ∧
    ¬ sortedDesc (serverGet exStore) := by
  decide

/-- Claim C4 (amended): the server's GET returns the entire store in
insertion order, ignoring any limit; the most-recent-first order and
the length bound are established client-side, by
`data.reverse().slice(0, N)` (N = 5 in the jsx bootstrap), which yields
at most N entries in most-recent-first order whenever the store is in
insertion order with nondecreasing timestamps. -/
theorem c4_list_recent_client_side (store : List Entry) (n : Nat)
    (hst : sortedAsc store) :
    serverGet store = store ∧
    ((serverGet store).reverse.take n).length ≤ n ∧
    sortedDesc ((serverGet store).reverse.take n) ∧
    bootstrapSeedV0 (serverGet store) = (serverGet store).reverse.take 5 := by
  refine ⟨rfl, ?_, sortedDesc_reverse_take store n hst, rfl⟩
  simp [serverGet, List.length_take]

/-- Witness for C4 (amended) on the two-entry store with limit 1. -/
theorem c4_list_recent_client_side_witness :
    serverGet exStore = exStore ∧
    ((serverGet exStore).reverse.take 1).length ≤ 1 ∧
    sortedDesc ((serverGet exStore).reverse.take 1) ∧
    bootstrapSeedV0 (serverGet exStore) = (serverGet exStore).reverse.take 5 :=
  c4_list_recent_client_side exStore 1 (by decide)

-- ---------------------------------------------------------------------
-- Retention lemmas for the server store
-- ---------------------------------------------------------------------

theorem lastN_length_le (n : Nat) (l : List Entry) : (lastN n l).length ≤ n := by
  unfold lastN
  rw [List.length_drop]
  omega

theorem lastN_append_absorb (n : Nat) (l t : List Entry) :
    lastN n (lastN n l ++ t) = lastN n (l ++ t) := by
  unfold lastN
  have hk : l.length - n ≤ l.length := Nat.sub_le _ _
  rw [← List.drop_append_of_le_length hk, List.drop_drop]
  congr 1
  simp only [List.length_drop, List.length_append]
  omega

theorem serverPost_store_eq (now : Nat) (b : Entry) (s : List Entry) :
    (serverPost now b s).2.1 = lastN 100 (s ++ [mkServerEntry now b]) := by
  show (if (s ++ [mkServerEntry now b]).length > 100
      then lastN 100 (s ++ [mkServerEntry now b])
      else s ++ [mkServerEntry now b])
    = lastN 100 (s ++ [mkServerEntry now b])
  split
  · rfl
  · next h =>
    unfold lastN
    rw [show (s ++ [mkServerEntry now b]).length - 100 = 0 by omega,
      List.drop_zero]

theorem serverPostMany_eq (reqs : List (Nat × Entry)) (store : List Entry)
    (hst : store.length ≤ 100) :
    serverPostMany reqs store
      = lastN 100 (store ++ reqs.map (fun r => mkServerEntry r.1 r.2)) := by
  induction reqs generalizing store with
  | nil =>
    unfold serverPostMany lastN
    rw [List.foldl_nil, List.map_nil, List.append_nil,
      show store.length - 100 = 0 by omega, List.drop_zero]
  | cons r rs ih =>
    have hstep : serverPostMany (r :: rs) store
        = serverPostMany rs ((serverPost r.1 r.2 store).2.1) := by
      unfold serverPostMany
      rw [List.foldl_cons]
    rw [hstep, ih _ (by rw [serverPost_store_eq]; exact lastN_length_le _ _),
      serverPost_store_eq, lastN_append_absorb, List.map_cons,
      List.append_assoc, List.singleton_append]

/-- Claim C5: appending more than CAP = 100 entries to the server store
leaves exactly the 100 most-recent entries, in insertion order with the
oldest evicted first (the result is the full accepted sequence with its
first N - 100 entries dropped), and no POST in the sequence surfaces an
error: every POST responds 201. -/
theorem c5_retention_cap (reqs : List (Nat × Entry))
    (hn : 100 < reqs.length) :
    serverPostMany reqs []
      = (reqs.map (fun r => mkServerEntry r.1 r.2)).drop (reqs.length - 100) ∧
    (serverPostMany reqs []).length = 100 ∧
    ∀ now b s, (serverPost now b s).2.2 = 201 := by
  have heq : serverPostMany reqs []
      = (reqs.map (fun r => mkServerEntry r.1 r.2)).drop (reqs.length - 100) := by
    rw [serverPostMany_eq reqs [] (by simp), List.nil_append]
    unfold lastN
    rw [List.length_map]
  refine ⟨heq, ?_, fun _ _ _ => rfl⟩
  rw [heq, List.length_drop, List.length_map]
  omega

/-- The request body used by the C5 witness. -/
def blankBody : Entry :=
  { x := "", y := "", z := "", score := 0, timestamp := 0 }

/-- 101 POST requests at clock readings 0..100. -/
def manyReqs : List (Nat × Entry) :=
  (List.range 101).map (fun i => (i, blankBody))

/-- Witness for C5 on 101 concrete appends. -/
theorem c5_retention_cap_witness :
    serverPostMany manyReqs []
      = (manyReqs.map (fun r => mkServerEntry r.1 r.2)).drop
          (manyReqs.length - 100) ∧
    (serverPostMany manyReqs []).length = 100 ∧
    ∀ now b s, (serverPost now b s).2.2 = 201 :=
  c5_retention_cap manyReqs (by decide)

-- ---------------------------------------------------------------------
-- Degraded-path lemmas
-- ---------------------------------------------------------------------

theorem processHarmonicResponse_not_connected (s : ControllerState)
    (now : Nat) (res : Except String Unit)
    (hc : ¬ s.apiStatus = ApiStatus.connected)
    (hi : ¬ blankIntent s.inputIntent = true) :
    processHarmonicResponse s now res
      = ({ s with
            outputResponse :=
              responseOf (combinedField s.inputIntent s.fieldTone).length,
            coherenceScore :=
              coherenceScoreOf (combinedField s.inputIntent s.fieldTone).length,
            memoryDisplay :=
              madeEntry s.inputIntent s.fieldTone now
                :: s.memoryDisplay.take 4 }, false) := by
  unfold processHarmonicResponse
  rw [if_neg hi]
  show (if s.apiStatus = ApiStatus.connected then _ else _) = _
  rw [if_neg hc]

theorem bootstrap_error_status (c : Config) (s : ControllerState)
    (ferr : String) :
    (bootstrap c (Except.error ferr) s).1.apiStatus = ApiStatus.error ∨
    (bootstrap c (Except.error ferr) s).1.apiStatus
      = ApiStatus.notConfigured := by
  unfold bootstrap
  split
  · exact Or.inr rfl
  · exact Or.inl rfl

theorem bootstrap_error_frame (c : Config) (s : ControllerState)
    (ferr : String) :
    (bootstrap c (Except.error ferr) s).1.inputIntent = s.inputIntent ∧
    (bootstrap c (Except.error ferr) s).1.fieldTone = s.fieldTone ∧
    (bootstrap c (Except.error ferr) s).1.memoryDisplay
      = s.memoryDisplay := by
  unfold bootstrap
  split
  · exact ⟨rfl, rfl, rfl⟩
  · exact ⟨rfl, rfl, rfl⟩

/-- Claim C6: when every durable-store call fails (the bootstrap fetch
and the insert both return errors), the connection status after
bootstrap is `error` (degraded) or `notConfigured` (local-only) and
never `connected`; a subsequent submit with a nonblank intent is still
accepted — its entry is prepended to the local displayed view — with no
store call attempted and the status still not `connected`.  Every
failure is consumed as a value by the transition functions, never
rethrown. -/
theorem c6_unavailable_store_stays_local (c : Config)
    (s : ControllerState) (ferr ierr : String) (now : Nat)
    (hi : ¬ blankIntent s.inputIntent = true) :
    ((bootstrap c (Except.error ferr) s).1.apiStatus
        ≠ ApiStatus.connected) ∧
    ((bootstrap c (Except.error ferr) s).1.apiStatus = ApiStatus.error ∨
      (bootstrap c (Except.error ferr) s).1.apiStatus
        = ApiStatus.notConfigured) ∧
    ((processHarmonicResponse (bootstrap c (Except.error ferr) s).1 now
        (Except.error ierr)).1.memoryDisplay
      = madeEntry s.inputIntent s.fieldTone now
          :: s.memoryDisplay.take 4) ∧
    ((processHarmonicResponse (bootstrap c (Except.error ferr) s).1 now
        (Except.error ierr)).2 = false) ∧
    ((processHarmonicResponse (bootstrap c (Except.error ferr) s).1 now
        (Except.error ierr)).1.apiStatus ≠ ApiStatus.connected) := by
  obtain ⟨hint, htone, hview⟩ := bootstrap_error_frame c s ferr
  have hb := bootstrap_error_status c s ferr
  have hnc : ¬ (bootstrap c (Except.error ferr) s).1.apiStatus
      = ApiStatus.connected := by
    rcases hb with hb | hb <;> rw [hb] <;> simp
  have hproc := processHarmonicResponse_not_connected
    (bootstrap c (Except.error ferr) s).1 now (Except.error ierr) hnc
    (by rw [hint]; exact hi)
  refine ⟨hnc, hb, ?_, ?_, ?_⟩
  · rw [hproc]
    simp only [hint, htone, hview]
  · rw [hproc]
  · rw [hproc]
    exact hnc

/-- Witness for C6 with a configured endpoint whose every call fails. -/
theorem c6_unavailable_store_stays_local_witness :
    ((bootstrap (Config.mk (some "https://real.example.co") (some "k1"))
        (Except.error "down") sChecking).1.apiStatus
        ≠ ApiStatus.connected) ∧
    ((bootstrap (Config.mk (some "https://real.example.co") (some "k1"))
        (Except.error "down") sChecking).1.apiStatus = ApiStatus.error ∨
      (bootstrap (Config.mk (some "https://real.example.co") (some "k1"))
        (Except.error "down") sChecking).1.apiStatus
        = ApiStatus.notConfigured) ∧
    ((processHarmonicResponse
        (bootstrap (Config.mk (some "https://real.example.co") (some "k1"))
          (Except.error "down") sChecking).1 9
        (Except.error "insert-down")).1.memoryDisplay
      = madeEntry sChecking.inputIntent sChecking.fieldTone 9
          :: sChecking.memoryDisplay.take 4) ∧
    ((processHarmonicResponse
        (bootstrap (Config.mk (some "https://real.example.co") (some "k1"))
          (Except.error "down") sChecking).1 9
        (Except.error "insert-down")).2 = false) ∧
    ((processHarmonicResponse
        (bootstrap (Config.mk (some "https://real.example.co") (some "k1"))
          (Except.error "down") sChecking).1 9
        (Except.error "insert-down")).1.apiStatus ≠ ApiStatus.connected) :=
  c6_unavailable_store_stays_local
    (Config.mk (some "https://real.example.co") (some "k1"))
    sChecking "down" "insert-down" 9 (by decide)

/-- Claim C7: an absent or placeholder endpoint URL or credential
forces local-only mode: bootstrap sets the status to `notConfigured`,
attempts no fetch and no subscription, and a subsequent submit from
that state attempts no store insert. -/
theorem c7_placeholder_forces_local_only (c : Config)
    (s : ControllerState) (fres : Except String (List Entry)) (now : Nat)
    (ires : Except String Unit)
    (h : c.url = none ∨ c.anonKey = none ∨
         effectiveUrl c = placeholderUrl ∨ effectiveKey c = placeholderKey) :
    (bootstrap c fres s).1.apiStatus = ApiStatus.notConfigured ∧
    (bootstrap c fres s).2.1 = false ∧
    (bootstrap c fres s).2.2 = false ∧
    (processHarmonicResponse (bootstrap c fres s).1 now ires).2 = false := by
  have hcond : effectiveUrl c = placeholderUrl
      ∨ effectiveKey c = placeholderKey := by
    rcases h with h | h | h | h
    · exact Or.inl (by simp [effectiveUrl, h])
    · exact Or.inr (by simp [effectiveKey, h])
    · exact Or.inl h
    · exact Or.inr h
  unfold bootstrap
  rw [if_pos hcond]
  refine ⟨rfl, rfl, rfl, ?_⟩
  unfold processHarmonicResponse
  split
  · rfl
  · rfl

/-- Witness for C7 with an absent URL. -/
theorem c7_placeholder_forces_local_only_witness :
    (bootstrap (Config.mk none (some "k1")) (Except.ok []) sChecking).1.apiStatus
        = ApiStatus.notConfigured ∧
    (bootstrap (Config.mk none (some "k1")) (Except.ok []) sChecking).2.1
        = false ∧
    (bootstrap (Config.mk none (some "k1")) (Except.ok []) sChecking).2.2
        = false ∧
    (processHarmonicResponse
        (bootstrap (Config.mk none (some "k1")) (Except.ok []) sChecking).1 9
        (Except.ok ())).2 = false :=
  c7_placeholder_forces_local_only (Config.mk none (some "k1")) sChecking
    (Except.ok []) 9 (Except.ok ()) (Or.inl rfl)
